import Mathlib

/-!
Verification of the form-validation and rate-limiting module of the
BridgeVoice website script (js/main.js), against its specification.

The JavaScript functions validateForm, validateField, throttle and debounce
are embedded shallowly:

* Strings are Lean Strings (lists of characters).  The ECMAScript
  whitespace class used both by String.prototype.trim and by the regex
  class \s is modelled by isJsWhitespace, and trimming by jsTrim.
* The regular expression of js/main.js line 170 and line 198,
  caret [^\s@]+@[^\s@]+\.[^\s@]+ dollar, is modelled by emailPatternMatch:
  a string matches exactly when it splits as A, at-sign, B, dot, C with
  A, B, C non-empty and free of whitespace and at-signs; since the character
  class excludes the at-sign, A is precisely the segment before the first
  at-sign, and since dots are allowed inside B and C, the dot of the
  pattern may be any dot of the tail that is neither its first nor its
  last character.
* A JavaScript form-data object may lack a key (the value is undefined),
  so FormInput carries Option String fields; the optional-chaining
  expression data.name?.trim() of the source is modelled by matching on
  the option.
* throttle and debounce wrap a callback using setTimeout.  They are
  modelled as state machines driven by a trace of timestamped calls
  (time, argument), under the single-threaded event-loop model: a timer
  scheduled at tick s with delay d runs before an event at tick t exactly
  when s + d is at most t and s is strictly less than t (a deferred
  callback never runs inside the tick that scheduled it, which is how a
  synchronous burst behaves in the browser).  The output of a run is the
  list of invocations of the wrapped callback, each with its time and
  argument.
-/

/-- The ECMAScript whitespace class (WhiteSpace and LineTerminator code
points), as matched by the regex class \s and removed by
String.prototype.trim: tab, line feed, vertical tab, form feed, carriage
return, space, no-break space, Ogham space mark, the en-quad..hair-space
range, line separator, paragraph separator, narrow no-break space, medium
mathematical space, ideographic space, and the byte-order mark. -/
def isJsWhitespace (c : Char) : Bool :=
  c = ' ' || c = '\t' || c = '\n' || c = '\r' ||
  c = Char.ofNat 11 || c = Char.ofNat 12 ||
  c = Char.ofNat 160 || c = Char.ofNat 5760 ||
  (8192 ≤ c.toNat && c.toNat ≤ 8202) ||
  c = Char.ofNat 8232 || c = Char.ofNat 8233 || c = Char.ofNat 8239 ||
  c = Char.ofNat 8287 || c = Char.ofNat 12288 || c = Char.ofNat 65279

/-- String.prototype.trim of JavaScript: leading and trailing ECMAScript
whitespace removed. -/
def jsTrim (s : String) : String :=
  String.mk (((s.data.dropWhile isJsWhitespace).reverse.dropWhile
    isJsWhitespace).reverse)

/-- A character admitted by the class excluding whitespace and at-signs,
written [^\s@] in the source pattern. -/
def isEmailChar (c : Char) : Bool :=
  !isJsWhitespace c && !(c = '@')

/-- The email pattern of js/main.js lines 170 and 198 (anchored:
one-or-more non-whitespace-non-at characters, an at-sign, one-or-more such
characters, a dot, one-or-more such characters).  The segment before the
first at-sign must be non-empty and clean; the tail after that at-sign
must be non-empty, clean, and contain a dot that is neither its first nor
its last character (the class admits dots, so the pattern's literal dot
may be any interior dot of the tail). -/
def emailPatternMatch (s : String) : Bool :=
  let cs := s.data
  let A := cs.takeWhile (fun c => !(c = '@'))
  match cs.dropWhile (fun c => !(c = '@')) with
  | [] => false
  | _ :: R =>
      !A.isEmpty && A.all isEmailChar &&
      !R.isEmpty && R.all isEmailChar &&
      (R.drop 1).dropLast.contains '.'

/-- The mapping handed to validateForm: one optional string per logical
field (a missing key of the JavaScript object is None). -/
structure FormInput where
  name : Option String
  email : Option String
  message : Option String

/-- validateForm of js/main.js lines 189 to 207.  Name: the error is pushed
when data.name?.trim() is falsy (the key is absent or the trimmed value is
empty).  Email: the required error is pushed when data.email?.trim() is
falsy; otherwise, when the raw (untrimmed) email value fails the pattern,
the format error is pushed.  Message: as name.  The three checks run in
this fixed order and each appends at most one message. -/
def validateForm (data : FormInput) : List String :=
  (match data.name with
   | none => [("Name is required.")]
   | some n => if jsTrim n = "" then [("Name is required.")] else []) ++
  (match data.email with
   | none => [("Email is required.")]
   | some e =>
       if jsTrim e = "" then [("Email is required.")]
       else if !emailPatternMatch e then
         [("Please enter a valid email address.")]
       else []) ++
  (match data.message with
   | none => [("Message is required.")]
   | some m => if jsTrim m = "" then [("Message is required.")] else [])

/-- A field as validateField sees it: its raw string value, its resolved
kind (the JavaScript expression field.type or-else field.tagName lowered,
so "email" for the email input), its required flag, and the text of its
first associated label when one exists (None when field.labels[0] is
absent; the source also falls back on the default when the text is the
empty string, which the model keeps). -/
structure FieldInput where
  value : String
  kind : String
  required : Bool
  label : Option String

/-- The label text used in the required message of js/main.js line 165:
field.labels[0]?.textContent or-else the default, so a missing label or an
empty label text both yield the default. -/
def labelText (l : Option String) : String :=
  match l with
  | none => "This field"
  | some t => if t = "" then "This field" else t

/-- validateField of js/main.js lines 158 to 184, reduced to its pure
core: the trimmed value is computed once; the required check sets the
error message when the field is required and the trimmed value is empty;
the email check runs when the kind is "email" and the trimmed value is
non-empty, overwriting the error when the trimmed value fails the
pattern; the function returns true exactly when the final error message
is the empty string (the DOM marking the source performs alongside is
outside the model). -/
def validateField (field : FieldInput) : Bool :=
  let value := jsTrim field.value
  let error :=
    if field.required && value = "" then labelText field.label ++ (" is required.")
    else ""
  let error :=
    if field.kind = ("email") && !(value = "") && !emailPatternMatch value then
      ("Please enter a valid email address.")
    else error
  error = ""

/-- The input with every absent field replaced by the empty string. -/
def fillEmpty (d : FormInput) : FormInput :=
  ⟨some (d.name.getD ("")), some (d.email.getD ("")), some (d.message.getD (""))⟩

/-- One step of the throttle wrapper of js/main.js lines 460 to 473 at a
call arriving at tick t.  The state is None when inThrottle is false, and
Some s when inThrottle was set by a leading call at tick s (its reset is
scheduled s + limit in the future).  Under the event-loop model the reset
has run before the call exactly when s + limit is at most t and s is
strictly before t; then, or from the fresh state, the call fires the
callback and opens a new window at t; otherwise the call is dropped.
Returns the new state and whether the callback fired. -/
def throttleStep (limit : Nat) (st : Option Nat) (t : Nat) : Option Nat × Bool :=
  match st with
  | none => (some t, true)
  | some s =>
      if s < t ∧ s + limit ≤ t then (some t, true) else (some s, false)

/-- Runs a throttled wrapper over a trace of timestamped calls, returning
the timestamped invocations of the wrapped callback (each with the
arriving call's argument, since the source applies func to the caller's
arguments). -/
def throttleRun (limit : Nat) (st : Option Nat) : List (Nat × α) → List (Nat × α)
  | [] => []
  | (t, a) :: rest =>
      match throttleStep limit st t with
      | (st2, true) => (t, a) :: throttleRun limit st2 rest
      | (st2, false) => throttleRun limit st2 rest

/-- One step of the debounce wrapper of js/main.js lines 476 to 492 at a
call arriving at tick t with argument a.  The state is the pending timer:
Some (s, f, pa) means the call at tick s scheduled the deferred callback
for tick f = s + wait capturing argument pa; None means no timer is
pending.  First, a pending timer due before this call (f at most t, s
strictly before t) has already run: it cleared the timeout, and fired the
callback with its captured argument unless immediate is set.  Then
callNow is immediate with no pending timer; the source clears any pending
timeout and schedules a new one for t + wait, and fires the callback with
this call's argument when callNow holds.  Returns the emitted
invocations and the new state. -/
def debounceStep (wait : Nat) (immediate : Bool) (st : Option (Nat × Nat × α))
    (t : Nat) (a : α) : List (Nat × α) × Option (Nat × Nat × α) :=
  let fired : List (Nat × α) × Option (Nat × Nat × α) :=
    match st with
    | none => ([], none)
    | some (s, f, pa) =>
        if s < t ∧ f ≤ t then ((if immediate then [] else [(f, pa)]), none)
        else ([], some (s, f, pa))
  let callNow := immediate && fired.2.isNone
  ((fired.1 ++ if callNow then [(t, a)] else []), some (t, t + wait, a))

/-- Runs a debounced wrapper over a trace of timestamped calls, returning
the invocations emitted while the trace runs and the pending timer left
at its end. -/
def debounceRun (wait : Nat) (immediate : Bool) (st : Option (Nat × Nat × α)) :
    List (Nat × α) → List (Nat × α) × Option (Nat × Nat × α)
  | [] => ([], st)
  | (t, a) :: rest =>
      let step := debounceStep wait immediate st t a
      let further := debounceRun wait immediate step.2 rest
      (step.1 ++ further.1, further.2)

/-- The timer left pending after the last call eventually runs: it fires
the callback with its captured argument unless immediate is set (with
immediate, the deferred callback only clears the timeout). -/
def debounceFlush (immediate : Bool) : Option (Nat × Nat × α) → List (Nat × α)
  | none => []
  | some (_, f, pa) => if immediate then [] else [(f, pa)]

/-- All invocations a debounced wrapper built with a fresh timeout
variable produces on a finite trace of calls, once every timer has run. -/
def debounceAll (wait : Nat) (immediate : Bool) (calls : List (Nat × α)) :
    List (Nat × α) :=
  let run := debounceRun wait immediate none calls
  run.1 ++ debounceFlush immediate run.2

/-- A trace is a burst for a given wait when each call arrives before the
timer scheduled by the previous call has run: at the same tick, or
strictly within wait of the previous call. -/
def isBurst (wait : Nat) : List (Nat × α) → Bool
  | [] => true
  | [_] => true
  | (t1, _) :: (t2, a2) :: rest =>
      (decide (t1 ≤ t2) && (decide (t2 = t1) || decide (t2 < t1 + wait))) &&
      isBurst wait ((t2, a2) :: rest)

example :
    validateForm ⟨some (""), some (""), some ("")⟩ =
      [("Name is required."), ("Email is required."), ("Message is required.")] := by
  decide

example : validateForm ⟨some ("John Doe"), some ("john@example.com"), some ("Test message")⟩ = [] := by
  decide

example :
    validateForm ⟨some ("John Doe"), some ("invalid-email"), some ("Test message")⟩ =
      [("Please enter a valid email address.")] := by
  decide

example : emailPatternMatch (jsTrim (" a@b.c")) = true := by decide

example :
    validateForm ⟨some ("x"), some (" a@b.c"), some ("x")⟩ =
      [("Please enter a valid email address.")] := by
  decide

example : validateField ⟨"", "text", true, some ("Name")⟩ = false := by decide

example : validateField ⟨"John Doe", "text", true, some ("Name")⟩ = true := by decide

example : validateField ⟨"invalid-email", "email", true, some ("Email")⟩ = false := by decide

example : validateField ⟨" a@b.c ", "email", true, some ("Email")⟩ = true := by decide

example :
    throttleRun 100 none [(0, 1), (0, 2), (0, 3), (150, 4)] = [(0, 1), (150, 4)] := by
  decide

example :
    debounceAll 100 false [((0 : Nat), (1 : Nat)), (0, 2), (0, 3)] = [(100, 3)] := by
  decide

example :
    debounceAll 100 true [((0 : Nat), (1 : Nat)), (0, 2), (0, 3)] = [(0, 1)] := by
  decide

example :
    debounceAll 100 false [((0 : Nat), (1 : Nat)), (40, 2), (110, 3)] = [(210, 3)] := by
  decide

/-- Helper: a string ending in the required-message suffix is not empty. -/
theorem append_is_required_ne_empty (s : String) : s ++ (" is required.") ≠ "" := by
  intro h
  have h2 := congrArg String.length h
  simp [String.length_append] at h2
  exact absurd h2.2 (by decide)

/-- C3.  On the all-empty input, validateForm returns exactly the three
required-field messages, in field order. -/
theorem validateForm_all_empty :
    validateForm ⟨some (""), some (""), some ("")⟩ =
      [("Name is required."), ("Email is required."), ("Message is required.")] := by
  decide

/-- C2.  validateForm returns the empty list exactly when the trimmed name
is non-empty, the trimmed email is non-empty and the (raw) email value
matches the email pattern, and the trimmed message is non-empty (an
absent field counts as the empty string). -/
theorem validateForm_empty_iff (d : FormInput) :
    validateForm d = [] ↔
      (jsTrim (d.name.getD ("")) ≠ "" ∧
       jsTrim (d.email.getD ("")) ≠ "" ∧ emailPatternMatch (d.email.getD ("")) = true ∧
       jsTrim (d.message.getD ("")) ≠ "") := by
  obtain ⟨n, e, m⟩ := d
  cases n <;> cases e <;> cases m <;>
    simp only [validateForm, Option.getD_some, Option.getD_none] <;>
    (try split_ifs) <;> simp_all <;> try decide

/-- C4.  Every list validateForm returns is a subsequence of the fixed
field-ordered list whose middle entry is one of the two email messages:
at most one message per field, drawn from the fixed strings, in field
declaration order. -/
theorem validateForm_ordered_sublist (d : FormInput) :
    ∃ e, (e = ("Email is required.") ∨ e = ("Please enter a valid email address.")) ∧
      List.Sublist (validateForm d)
        [("Name is required."), e, ("Message is required.")] := by
  obtain ⟨n, em, m⟩ := d
  cases n <;> cases em <;> cases m <;>
    simp only [validateForm] <;> (try split_ifs) <;>
    first
      | exact ⟨("Email is required."), Or.inl rfl, by decide⟩
      | exact ⟨("Please enter a valid email address."), Or.inr rfl, by decide⟩

/-- C5.  No returned list holds both email messages at once: the
malformed-email check sits in the else-branch of the emptiness check. -/
theorem validateForm_email_errors_exclusive (d : FormInput) :
    ((validateForm d).contains ("Email is required.") &&
      (validateForm d).contains ("Please enter a valid email address.")) = false := by
  obtain ⟨n, em, m⟩ := d
  cases n <;> cases em <;> cases m <;>
    simp only [validateForm] <;> (try split_ifs) <;> decide

/-- C6.  validateField returns false exactly when the field is required
with empty trimmed value, or its kind is email with a non-empty trimmed
value failing the email pattern; it returns true iff no error condition
matched. -/
theorem validateField_false_iff (field : FieldInput) :
    validateField field = false ↔
      ((field.required = true ∧ jsTrim field.value = "") ∨
       (field.kind = ("email") ∧ jsTrim field.value ≠ "" ∧
        emailPatternMatch (jsTrim field.value) = false)) := by
  obtain ⟨v, k, r, l⟩ := field
  simp only [validateField]
  split_ifs with h2 h1 <;>
    simp_all [append_is_required_ne_empty, Bool.and_eq_true, decide_eq_true_eq]

/-- C10.  validateForm is total on partial inputs: an absent field behaves
exactly like an empty one (replacing every absent field by the empty
string leaves the output unchanged) and contributes its required message
to the returned list. -/
theorem validateForm_missing_fields (d : FormInput) :
    validateForm (fillEmpty d) = validateForm d ∧
    (d.name = none → ("Name is required.") ∈ validateForm d) ∧
    (d.email = none → ("Email is required.") ∈ validateForm d) ∧
    (d.message = none → ("Message is required.") ∈ validateForm d) := by
  obtain ⟨n, e, m⟩ := d
  have hts : jsTrim ("") = "" := by decide
  have hpm : emailPatternMatch ("") = false := by decide
  cases n <;> cases e <;> cases m <;>
    simp_all [validateForm, fillEmpty, List.mem_append]

/-- C1 fails on the code: the source tests the email pattern against the
raw value, not the trimmed one, so an email whose trimmed value is
non-empty and matches the pattern still draws the format error when its
raw value carries surrounding whitespace. -/
theorem validateForm_email_trimmed_pattern_cex :
    jsTrim (" a@b.c") ≠ "" ∧ emailPatternMatch (jsTrim (" a@b.c")) = true ∧
    ("Please enter a valid email address.") ∈
      validateForm ⟨some ("x"), some (" a@b.c"), some ("x")⟩ := by
  decide

/-- C1 as amended.  validateForm applies the email pattern to the raw
(untrimmed) email value: whenever the trimmed email value is non-empty
and the raw email value matches the pattern, the returned list does not
contain the format error. -/
theorem validateForm_email_raw_pattern (d : FormInput) (e : String)
    (h1 : d.email = some e) (h2 : jsTrim e ≠ "") (h3 : emailPatternMatch e = true) :
    (validateForm d).contains ("Please enter a valid email address.") = false := by
  obtain ⟨n, em, m⟩ := d
  cases h1
  cases n <;> cases m <;>
    simp only [validateForm] <;> (try split_ifs) <;> simp_all

/-- Witness for the amended C1 at a concrete input. -/
theorem validateForm_email_raw_pattern_witness :
    jsTrim ("a@b.c") ≠ "" ∧ emailPatternMatch ("a@b.c") = true ∧
    (validateForm ⟨some (""), some ("a@b.c"), some ("")⟩).contains
      ("Please enter a valid email address.") = false :=
  ⟨by decide, by decide,
    validateForm_email_raw_pattern ⟨some (""), some ("a@b.c"), some ("")⟩
      ("a@b.c") rfl (by decide) (by decide)⟩

/-- Helper for C7: while the window opened at tick t0 is active, every
call arriving within it (at tick t0 itself, or at any later tick strictly
before the window's end) is dropped and leaves the window in place; the
next call strictly after t0 and at or past the window's end fires. -/
theorem throttleRun_window_drops (limit t0 t : Nat) (b : α) (calls : List (Nat × α))
    (hburst : ∀ p ∈ calls, t0 ≤ p.1 ∧ (p.1 = t0 ∨ p.1 < t0 + limit))
    (ht : t0 < t) (hw : t0 + limit ≤ t) :
    throttleRun limit (some t0) (calls ++ [(t, b)]) = [(t, b)] := by
  induction calls with
  | nil =>
      simp only [List.nil_append, throttleRun, throttleStep]
      rw [if_pos ⟨ht, hw⟩]
  | cons p rest ih =>
      obtain ⟨ti, ai⟩ := p
      have hp : t0 ≤ ti ∧ (ti = t0 ∨ ti < t0 + limit) :=
        hburst (ti, ai) (List.mem_cons_self _ _)
      simp only [List.cons_append, throttleRun, throttleStep]
      rw [if_neg (by omega)]
      exact ih (fun q hq => hburst q (List.mem_cons_of_mem _ hq))

/-- C7.  A throttled wrapper fires on the leading call with that call's
argument; every further call arriving while the window is open — at the
leading tick or at any later tick strictly before the window has elapsed
— is dropped entirely (nothing fires for it, nothing is queued); and a
call arriving once the window has elapsed fires exactly once more, with
that caller's argument. -/
theorem throttle_leading_edge (limit t0 t : Nat) (a b : α) (calls : List (Nat × α))
    (hburst : ∀ p ∈ calls, t0 ≤ p.1 ∧ (p.1 = t0 ∨ p.1 < t0 + limit))
    (ht : t0 < t) (hw : t0 + limit ≤ t) :
    throttleRun limit none (((t0, a) :: calls) ++ [(t, b)]) = [(t0, a), (t, b)] := by
  simp only [List.cons_append, throttleRun, throttleStep]
  exact congrArg (fun l => (t0, a) :: l)
    (throttleRun_window_drops limit t0 t b calls hburst ht hw)

/-- Witness for C7 at the spec's numbers plus a mid-window call: with a
100-tick window, calls at ticks 0, 0, 50 fire only the leading one, and
the call at tick 150 fires again. -/
theorem throttle_leading_edge_witness :
    throttleRun 100 none
      ((((0 : Nat), (1 : Nat)) :: [(0, 2), (50, 3)]) ++ [(150, 4)]) =
      [(0, 1), (150, 4)] :=
  throttle_leading_edge 100 0 150 1 4 [(0, 2), (50, 3)]
    (by decide) (by decide) (by decide)

/-- Helper for C8 and C9: starting with the timer scheduled by a burst's
call at tick t, the remaining calls of the burst each arrive before the
pending timer runs, so they emit nothing and merely reschedule; the final
state is the timer of the burst's last call. -/
theorem debounceRun_burst (wait : Nat) (imm : Bool) (t : Nat) (a : α)
    (calls : List (Nat × α)) (h : isBurst wait ((t, a) :: calls) = true) :
    debounceRun wait imm (some (t, t + wait, a)) calls =
      ([], some ((calls.getLastD (t, a)).1, (calls.getLastD (t, a)).1 + wait,
                 (calls.getLastD (t, a)).2)) := by
  induction calls generalizing t a with
  | nil => rfl
  | cons p rest ih =>
      obtain ⟨t2, a2⟩ := p
      simp only [isBurst, Bool.and_eq_true, Bool.or_eq_true, decide_eq_true_eq] at h
      obtain ⟨⟨hle, hcl⟩, hrest⟩ := h
      have hnofire : ¬(t < t2 ∧ t + wait ≤ t2) := by omega
      simp only [debounceRun, debounceStep, if_neg hnofire, Option.isNone_some,
        Bool.and_false, List.nil_append]
      rw [List.getLastD_cons]
      have := ih t2 a2 hrest
      simp only [this, List.append_nil]
      simp

/-- C8.  A debounced wrapper without the immediate flag emits nothing
while a burst runs, and fires exactly once, wait ticks after the burst's
last call, with that last call's argument. -/
theorem debounce_trailing_edge (wait t : Nat) (a : α) (calls : List (Nat × α))
    (h : isBurst wait ((t, a) :: calls) = true) :
    (debounceRun wait false none ((t, a) :: calls)).1 = [] ∧
    debounceAll wait false ((t, a) :: calls) =
      [((calls.getLastD (t, a)).1 + wait, (calls.getLastD (t, a)).2)] := by
  have hrun :
      debounceRun wait false none ((t, a) :: calls) =
        ([], some ((calls.getLastD (t, a)).1, (calls.getLastD (t, a)).1 + wait,
                   (calls.getLastD (t, a)).2)) := by
    simp only [debounceRun, debounceStep]
    rw [debounceRun_burst wait false t a calls h]
    rfl
  refine ⟨by rw [hrun], ?_⟩
  simp [debounceAll, hrun, debounceFlush]

/-- Witness for C8 at the spec's own numbers: three synchronous calls
with a 100-tick wait emit nothing during the burst and exactly one
trailing call at tick 100 with the last argument. -/
theorem debounce_trailing_edge_witness :
    (debounceRun 100 false none [((0 : Nat), (1 : Nat)), (0, 2), (0, 3)]).1 = [] ∧
    debounceAll 100 false [((0 : Nat), (1 : Nat)), (0, 2), (0, 3)] = [(100, 3)] :=
  debounce_trailing_edge 100 0 1 [(0, 2), (0, 3)] (by decide)

/-- C9.  A debounced wrapper with the immediate flag fires synchronously
on the first call of a burst with that call's argument, stays silent for
the rest of the burst, and makes no trailing call for the burst. -/
theorem debounce_immediate_leading (wait t : Nat) (a : α) (calls : List (Nat × α))
    (h : isBurst wait ((t, a) :: calls) = true) :
    debounceAll wait true ((t, a) :: calls) = [(t, a)] := by
  simp only [debounceAll, debounceRun, debounceStep]
  rw [debounceRun_burst wait true t a calls h]
  rfl

/-- Witness for C9: an immediate debounce over a three-call synchronous
burst fires once, at once, with the first argument. -/
theorem debounce_immediate_leading_witness :
    debounceAll 100 true [((0 : Nat), (1 : Nat)), (0, 2), (0, 3)] = [(0, 1)] :=
  debounce_immediate_leading 100 0 1 [(0, 2), (0, 3)] (by decide)
